import Mathlib

/-!
Shallow embedding of the multi-provider streaming chat gateway:
the wire frame codec of the route handlers (src/unnamed/part_006),
the client frame decoder/accumulator of ChatInterface.handleSubmit
(src/unnamed/part_000), the OpenAI resource lifecycle manager
(getOrCreateAssistant / ensureVectorStore / uploadFileToVectorStore,
src/unnamed/part_000), and the request dispatcher (POST, part_006).
-/

namespace RagGateway

/-! ### JSON values exchanged on the wire.

The wire protocol only ever carries JSON strings (`0:` frames) and
JSON objects of strings and nonnegative integers (`2:` frames), so the
embedded JSON value type and parser cover exactly that grammar
(strings with escapes, nonnegative decimal integers, objects).  This
models the behaviour of `JSON.stringify` / `JSON.parse` on the values
this program exchanges. -/

inductive Json where
  | str (s : String)
  | num (n : Nat)
  | obj (fields : List (String × Json))

/-- Lowercase hex digit, as `JSON.stringify` uses for control-character
escapes. -/
def hexDigit (n : Nat) : Char :=
  if n < 10 then Char.ofNat (48 + n) else Char.ofNat (87 + n)

/-- Per-character escaping of `JSON.stringify` for strings: `"` and `\`
are backslash-escaped, control characters use the short escapes or
`\u00XX`, everything else is passed through verbatim. -/
def escapeChar (c : Char) : String :=
  if c = '"' then "\\\""
  else if c = '\\' then "\\\\"
  else if c = Char.ofNat 8 then "\\b"
  else if c = Char.ofNat 12 then "\\f"
  else if c = '\n' then "\\n"
  else if c = '\r' then "\\r"
  else if c = '\t' then "\\t"
  else if c.toNat < 32 then
    "\\u00" ++ String.singleton (hexDigit (c.toNat / 16)) ++
      String.singleton (hexDigit (c.toNat % 16))
  else String.singleton c

/-- `JSON.stringify` applied to a string value. -/
def jsonQuote (s : String) : String :=
  "\"" ++ String.join (s.data.map escapeChar) ++ "\""

/-- Decode one short escape sequence of a JSON string (`JSON.parse`).
`\uXXXX` escapes are not decoded: the encoder above only emits them for
control characters, which never occur in this program's wire traffic. -/
def escDecode (e : Char) : Option Char :=
  if e = '"' then some '"'
  else if e = '\\' then some '\\'
  else if e = '/' then some '/'
  else if e = 'n' then some '\n'
  else if e = 't' then some '\t'
  else if e = 'r' then some '\r'
  else if e = 'b' then some (Char.ofNat 8)
  else if e = 'f' then some (Char.ofNat 12)
  else none

/-- Parse the body of a JSON string after the opening quote; fails on
unterminated strings (as `JSON.parse` throws there). -/
def parseStringBody : List Char → Option (String × List Char)
  | [] => none
  | '"' :: rest => some ("", rest)
  | '\\' :: rest =>
    match rest with
    | [] => none
    | e :: rest2 =>
      match escDecode e with
      | none => none
      | some c => (parseStringBody rest2).map (fun r => (String.singleton c ++ r.1, r.2))
  | c :: rest => (parseStringBody rest).map (fun r => (String.singleton c ++ r.1, r.2))

/-- Consume a run of decimal digits. -/
def parseNatDigits : List Char → Nat → Nat × List Char
  | [], acc => (acc, [])
  | c :: cs, acc =>
    if c.isDigit then parseNatDigits cs (acc * 10 + (c.toNat - 48))
    else (acc, c :: cs)

/-- Intermediate result of the recursive-descent parser: either one JSON
value or the field list of an object. -/
inductive PRes where
  | val (j : Json)
  | fields (fs : List (String × Json))

/-- Fuelled recursive-descent parser for the wire JSON grammar.
Mode `false` parses a value, mode `true` parses object fields up to the
closing brace. -/
def parseP : Nat → Bool → List Char → Option (PRes × List Char)
  | 0, _, _ => none
  | _ + 1, false, [] => none
  | fuel + 1, false, c :: cs =>
    if c = '"' then (parseStringBody cs).map (fun r => (PRes.val (Json.str r.1), r.2))
    else if c = '{' then
      match cs with
      | '}' :: rest => some (PRes.val (Json.obj []), rest)
      | _ =>
        match parseP fuel true cs with
        | some (PRes.fields fs, r) => some (PRes.val (Json.obj fs), r)
        | _ => none
    else if c.isDigit then
      let r := parseNatDigits (c :: cs) 0
      some (PRes.val (Json.num r.1), r.2)
    else none
  | fuel + 1, true, cs =>
    match cs with
    | '"' :: cs1 =>
      match parseStringBody cs1 with
      | some (key, cs2) =>
        match cs2 with
        | ':' :: cs3 =>
          match parseP fuel false cs3 with
          | some (PRes.val v, cs4) =>
            match cs4 with
            | ',' :: cs5 =>
              match parseP fuel true cs5 with
              | some (PRes.fields fs, r) => some (PRes.fields ((key, v) :: fs), r)
              | _ => none
            | '}' :: cs5 => some (PRes.fields [(key, v)], cs5)
            | _ => none
          | _ => none
        | _ => none
      | none => none
    | _ => none

/-- `JSON.parse`: the whole input must be consumed, otherwise the call
throws (modelled as `none`). -/
def jsonParse (s : String) : Option Json :=
  match parseP (s.data.length + 1) false s.data with
  | some (PRes.val v, []) => some v
  | _ => none

/-- JavaScript property access `j.k` on a parsed JSON value: `none`
models `undefined`. -/
def Json.getField : Json → String → Option Json
  | .obj fs, k => (fs.find? (fun f => f.1 == k)).map (fun f => f.2)
  | _, _ => none

/-- JavaScript truthiness of a JSON value. -/
def Json.truthy : Json → Bool
  | .str s => s ≠ ""
  | .num n => n ≠ 0
  | .obj _ => true

/-- JavaScript string coercion, as used by `assistantContent += text`. -/
def jsToString : Json → String
  | .str s => s
  | .num n => toString n
  | .obj _ => "[object Object]"

/-! ### Client frame decoder / accumulator
(ChatInterface.handleSubmit read loop, src/unnamed/part_000 lines 139-184).
Every byte of this wire traffic is ASCII, so the byte stream is modelled
as a `String` and a delivery event (`reader.read()` result) as one
`String` chunk. -/

/-- Accumulator state of the read loop: the running `assistantContent`
buffer and the arguments of every `trackUsage` call made so far (the
accounting callback; `none` models a JavaScript `undefined` field). -/
structure DecoderState where
  assistantContent : String
  trackedUsage : List (Option Json × Option Json × Option Json)

/-- JavaScript `chunk.split('\n')` (keeps a trailing empty piece). -/
def splitLinesAux : List Char → List Char → List String
  | [], acc => [String.mk acc.reverse]
  | '\n' :: rest, acc => String.mk acc.reverse :: splitLinesAux rest []
  | c :: rest, acc => splitLinesAux rest (c :: acc)

def jsSplitNewline (s : String) : List String :=
  splitLinesAux s.data []

/-- Dispatch of one complete line: `0:` lines are `JSON.parse`d and
appended to the content buffer (a parse error skips the line), `2:`
lines are parsed and, when `meta.usage` is truthy, its fields are handed
to the `trackUsage` accounting callback; any other line is ignored. -/
def lineDispatch (st : DecoderState) (line : String) : DecoderState :=
  match line.data with
  | '0' :: ':' :: rest =>
    match jsonParse (String.mk rest) with
    | some j => { st with assistantContent := st.assistantContent ++ jsToString j }
    | none => st
  | '2' :: ':' :: rest =>
    match jsonParse (String.mk rest) with
    | some meta =>
      match meta.getField "usage" with
      | some usage =>
        if usage.truthy then
          { st with trackedUsage := st.trackedUsage ++
              [(usage.getField "inputTokens", usage.getField "outputTokens",
                usage.getField "model")] }
        else st
      | none => st
    | none => st
  | _ => st

/-- Process one delivery event: split the chunk on newlines and dispatch
each piece (the loop body of the client reader). -/
def processChunk (st : DecoderState) (chunk : String) : DecoderState :=
  (jsSplitNewline chunk).foldl lineDispatch st

/-- Run the client decoder over a whole sequence of delivery events. -/
def runDecoder (chunks : List String) : DecoderState :=
  chunks.foldl processChunk { assistantContent := "", trackedUsage := [] }

/-! ### Wire frame encoders (the `ReadableStream` bodies of
handleGemini, handleOpenAI and handleOpenAISimple in
src/unnamed/part_006).  Each `controller.enqueue` emits exactly one
line; an adapter run is modelled as the list of lines it enqueues. -/

/-- One `0:${JSON.stringify(text)}\n` frame line. -/
def encodeTextLine (t : String) : String :=
  "0:" ++ (jsonQuote t ++ "\n")

/-- Body of `JSON.stringify({usage:{inputTokens, outputTokens, model}})`
plus the line terminator. -/
def usagePayload (inp out : Nat) (model : String) : String :=
  "\x7b\"usage\":\x7b\"inputTokens\":" ++ toString inp ++ ",\"outputTokens\":" ++
    toString out ++ ",\"model\":" ++ jsonQuote model ++ "\x7d\x7d\n"

/-- The terminal `2:` frame line of handleGemini / handleOpenAISimple. -/
def encodeUsageLine (inp out : Nat) (model : String) : String :=
  "2:" ++ usagePayload inp out model

/-- Body of the terminal frame of handleOpenAI, which also carries the
thread handle. -/
def usagePayloadThread (inp out : Nat) (model threadId : String) : String :=
  "\x7b\"usage\":\x7b\"inputTokens\":" ++ toString inp ++ ",\"outputTokens\":" ++
    toString out ++ ",\"model\":" ++ jsonQuote model ++ "\x7d,\"threadId\":" ++
    jsonQuote threadId ++ "\x7d\n"

/-- The terminal `2:` frame line of handleOpenAI. -/
def encodeUsageLineThread (inp out : Nat) (model threadId : String) : String :=
  "2:" ++ usagePayloadThread inp out model threadId

/-- Gemini `chunk.usageMetadata`: cumulative token counts, either field
possibly absent (`usage.promptTokenCount || 0`). -/
structure GeminiUsage where
  promptTokenCount : Option Nat
  candidatesTokenCount : Option Nat

/-- One chunk of the Gemini upstream stream: `chunk.text()` and the
optional `chunk.usageMetadata`. -/
structure GeminiChunk where
  text : String
  usageMetadata : Option GeminiUsage

/-- The `for await` loop of handleGemini's stream: emit a `0:` line for
every chunk with non-empty text, and keep only the latest cumulative
usage values. -/
def geminiLoop : List GeminiChunk → Nat × Nat → List String × (Nat × Nat)
  | [], totals => ([], totals)
  | c :: rest, totals =>
    let lines := if c.text ≠ "" then [encodeTextLine c.text] else []
    let totals2 := match c.usageMetadata with
      | some u => (u.promptTokenCount.getD 0, u.candidatesTokenCount.getD 0)
      | none => totals
    let r := geminiLoop rest totals2
    (lines ++ r.1, r.2)

/-- All lines handleGemini's `ReadableStream` enqueues on a run whose
upstream stream completes: the loop's `0:` lines, then the single
terminal `2:` usage line, then `controller.close()`. -/
def handleGeminiStreamLines (chunks : List GeminiChunk) (modelId : String) : List String :=
  let r := geminiLoop chunks (0, 0)
  r.1 ++ [encodeUsageLine r.2.1 r.2.2 modelId]

/-- One content block of a `thread.message.delta` event:
`block.type` and `block.text?.value`. -/
structure RunBlock where
  type : String
  textValue : Option String

/-- One event of the OpenAI Assistants run stream. -/
inductive RunEvent where
  | messageDelta (content : Option (List RunBlock))
  | runCompleted (usage : Option (Option Nat × Option Nat))
  | otherEvent

/-- The `for await` loop of handleOpenAI's stream: text blocks of
`thread.message.delta` events become `0:` lines, `thread.run.completed`
records final usage, every other event kind is ignored. -/
def openAILoop : List RunEvent → Nat × Nat → List String × (Nat × Nat)
  | [], totals => ([], totals)
  | e :: rest, totals =>
    let step : List String × (Nat × Nat) := match e with
      | .messageDelta content =>
        ((content.getD []).filterMap (fun b =>
          match b.textValue with
          | some v => if b.type = "text" ∧ v ≠ "" then some (encodeTextLine v) else none
          | none => none), totals)
      | .runCompleted usage =>
        ([], match usage with
          | some u => (u.1.getD 0, u.2.getD 0)
          | none => totals)
      | .otherEvent => ([], totals)
    let r := openAILoop rest step.2
    (step.1 ++ r.1, r.2)

/-- All lines handleOpenAI's `ReadableStream` enqueues on a completed
run: the loop's `0:` lines, then the terminal `2:` line carrying usage
and the (possibly newly created) thread handle. -/
def handleOpenAIStreamLines (events : List RunEvent) (modelId threadId : String) : List String :=
  let r := openAILoop events (0, 0)
  r.1 ++ [encodeUsageLineThread r.2.1 r.2.2 modelId threadId]

/-- One chunk of the simple chat-completion stream:
`chunk.choices[0]?.delta?.content` and `chunk.usage`. -/
structure CompletionChunk where
  content : Option String
  usage : Option (Option Nat × Option Nat)

/-- The `for await` loop of handleOpenAISimple's stream. -/
def simpleLoop : List CompletionChunk → Nat × Nat → List String × (Nat × Nat)
  | [], totals => ([], totals)
  | c :: rest, totals =>
    let lines := match c.content with
      | some v => if v ≠ "" then [encodeTextLine v] else []
      | none => []
    let totals2 := match c.usage with
      | some u => (u.1.getD 0, u.2.getD 0)
      | none => totals
    let r := simpleLoop rest totals2
    (lines ++ r.1, r.2)

/-- All lines handleOpenAISimple's `ReadableStream` enqueues on a
completed run. -/
def handleOpenAISimpleStreamLines (chunks : List CompletionChunk) (modelId : String) : List String :=
  let r := simpleLoop chunks (0, 0)
  r.1 ++ [encodeUsageLine r.2.1 r.2.2 modelId]

/-! ### Gemini adapter and request dispatcher (POST, src/unnamed/part_006). -/

/-- One entry of `fileManager.listFiles().files`. -/
structure GeminiFile where
  state : String
  mimeType : String
  uri : String
  displayName : String

/-- Result of opening the Gemini model session: the document-name slot
`${fileNames || "none"}` embedded in the system instruction, and the
lines of the outgoing stream. -/
structure GeminiStreamResponse where
  systemGrounding : String
  lines : List String

/-- handleGemini.  The `await fileManager.listFiles()` call is passed in
as its outcome; the function body has no try/catch, so a listing failure
propagates (`Except.error`) instead of falling back to empty grounding.
On success, `fileList.files || []` is filtered to `"ACTIVE"` files whose
display names are joined into the system instruction (or `"none"` when
the join is empty), and the upstream chunks are translated to frames. -/
def handleGemini (listFilesResult : Except String (Option (List GeminiFile)))
    (chunks : List GeminiChunk) (modelId : String) :
    Except String GeminiStreamResponse :=
  match listFilesResult with
  | .error e => .error e
  | .ok maybeFiles =>
    let files := maybeFiles.getD []
    let fileNames := String.intercalate ", "
      ((files.filter (fun f => f.state = "ACTIVE")).map (fun f => f.displayName))
    .ok { systemGrounding := if fileNames ≠ "" then fileNames else "none",
          lines := handleGeminiStreamLines chunks modelId }

/-- Outcome of the POST route handler as observed by the client: a
JSON error response with an HTTP status, a streaming response made of
frame lines, or a failure of the returned handler promise that nothing
intercepts.  POST executes `return handleGemini(...)` without `await`,
so its try block has already been exited when the handler's promise
rejects: the catch branch never runs for handler failures and the
request fails with the unhandled rejection instead of a structured
body. -/
inductive PostResult where
  | response (status : Nat) (body : String)
  | streamResponse (lines : List String)
  | unhandledRejection (error : String)

/-- `effectiveModel`: `modelId || (provider === "openai" ? "gpt-4o-mini"
: "gemini-2.5-flash")` (an absent or empty model falls to the default). -/
def effectiveModel (modelId : Option String) (provider : String) : String :=
  let m := modelId.getD ""
  if m ≠ "" then m
  else if provider = "openai" then "gpt-4o-mini" else "gemini-2.5-flash"

/-- Dispatch decision of POST after the request body parses: `rejected`
is the early 400 return (no adapter is invoked and no upstream call is
made on that path — the adapters are reachable only through the other
two constructors). -/
inductive Dispatch where
  | rejected (status : Nat) (errorMessage : String)
  | toOpenAI (apiKey modelId : String) (assistantId threadId : Option String)
  | toGemini (apiKey modelId : String)

/-- The credential check and provider dispatch of POST
(src/unnamed/part_006 lines 16-39): `provider = "gemini"` by default,
`effectiveApiKey = apiKey || ""`, and an empty credential is rejected
with a 400 JSON error before either handler is called. -/
def dispatchPOST (apiKey modelId provider assistantId threadId : Option String) : Dispatch :=
  let prov := provider.getD "gemini"
  let effectiveApiKey := apiKey.getD ""
  let eModel := effectiveModel modelId prov
  if effectiveApiKey = "" then
    .rejected 400 ("No " ++ (if prov = "openai" then "OpenAI" else "Gemini") ++
      " API key configured. Please add one in Settings.")
  else if prov = "openai" then .toOpenAI effectiveApiKey eModel assistantId threadId
  else .toGemini effectiveApiKey eModel

/-- POST on the Gemini path: the 400 credential check runs
synchronously inside the try block, but the handler call is returned
without `await`, so a handler error surfaces as an unhandled rejection
carrying the original error — POST's catch branch does not observe it. -/
def POSTgemini (apiKey modelId : Option String)
    (listFilesResult : Except String (Option (List GeminiFile)))
    (chunks : List GeminiChunk) : PostResult :=
  if apiKey.getD "" = "" then
    .response 400 "No Gemini API key configured. Please add one in Settings."
  else
    match handleGemini listFilesResult chunks (effectiveModel modelId "gemini") with
    | .ok resp => .streamResponse resp.lines
    | .error e => .unhandledRejection e

/-! ### OpenAI resource lifecycle manager
(getOrCreateAssistant / ensureVectorStore, src/unnamed/part_000
lines 493-563).  The vendor is modelled as explicit state: the list of
assistants (each with the `tool_resources.file_search.vector_store_ids`
of its `file_search` grounding tool), the list of vector stores, and a
counter from which the vendor mints fresh identifiers. -/

structure Assistant where
  id : String
  vectorStoreIds : List String
deriving DecidableEq

structure VendorState where
  assistants : List Assistant
  vectorStores : List String
  nextId : Nat
deriving DecidableEq

/-- `openai.beta.assistants.retrieve`: `none` models the vendor
rejecting the handle (the call throws). -/
def retrieveAssistant (st : VendorState) (id : String) : Option Assistant :=
  st.assistants.find? (fun a => a.id == id)

/-- `openai.beta.vectorStores.create({name:"Editorial Knowledge Base"})`. -/
def createVectorStore (st : VendorState) : VendorState × String :=
  let vsId := "vs-" ++ toString st.nextId
  ({ st with vectorStores := st.vectorStores ++ [vsId], nextId := st.nextId + 1 }, vsId)

/-- `openai.beta.assistants.create` with the `file_search` tool pointed
at the given vector stores. -/
def createAssistant (st : VendorState) (vsIds : List String) : VendorState × Assistant :=
  let a : Assistant := { id := "asst-" ++ toString st.nextId, vectorStoreIds := vsIds }
  ({ st with assistants := st.assistants ++ [a], nextId := st.nextId + 1 }, a)

/-- `openai.beta.assistants.update` replacing the attached stores. -/
def updateAssistant (st : VendorState) (id : String) (vsIds : List String) : VendorState :=
  { st with assistants :=
      st.assistants.map fun a =>
        if a.id = id then { a with vectorStoreIds := vsIds } else a }

/-- ensureVectorStore: retrieve the assistant (a stale handle throws),
return its first attached store if any, otherwise create a store and
persist the attachment with an update. -/
def ensureVectorStore (st : VendorState) (assistantId : String) :
    Except String (VendorState × String) :=
  match retrieveAssistant st assistantId with
  | none => .error "assistant not found"
  | some assistant =>
    match assistant.vectorStoreIds with
    | vsId :: _ => .ok (st, vsId)
    | [] =>
      let r := createVectorStore st
      .ok (updateAssistant r.1 assistantId [r.2], r.2)

/-- getOrCreateAssistant (`ensure`).  When a (non-empty) handle is
given, the try block retrieves it and resolves the store
(`vectorStoreId || await ensureVectorStore(...)`); any throw inside the
try falls through to creation, which makes a fresh vector store and a
fresh assistant whose `file_search` tool points at it. -/
def getOrCreateAssistant (st : VendorState) (assistantId vectorStoreId : Option String) :
    VendorState × String × String :=
  let attempt : Option (VendorState × String × String) :=
    if assistantId.getD "" = "" then none
    else
      match retrieveAssistant st (assistantId.getD "") with
      | none => none
      | some existing =>
        if vectorStoreId.getD "" ≠ "" then some (st, existing.id, vectorStoreId.getD "")
        else
          match ensureVectorStore st existing.id with
          | .ok r => some (r.1, existing.id, r.2)
          | .error _ => none
  match attempt with
  | some r => r
  | none =>
    let r1 := createVectorStore st
    let r2 := createAssistant r1.1 [r1.2]
    (r2.1, r2.2.id, r1.2)

/-! ### Ingestion (uploadFileToVectorStore, src/unnamed/part_000
lines 566-608).  The vendor's upload and attach calls yield `file.id`
and `vectorStoreFile.id`; the poll loop re-reads the attachment status
while it is `"in_progress"`.  The sequence of statuses the vendor
reports is passed in explicitly: the initial `vectorStoreFile.status`
and the statuses returned by successive `retrieve` calls. -/

/-- The `while (status === "in_progress")` poll loop: the terminal
status, or `none` when the modelled status sequence never leaves
`"in_progress"` (the real loop does not return in that case). -/
def pollStatus : String → List String → Option String
  | s, [] => if s = "in_progress" then none else some s
  | s, u :: rest => if s = "in_progress" then pollStatus u rest else some s

/-- uploadFileToVectorStore after the upload and attach calls have
produced `fileId` and `vectorStoreFileId`: poll, then throw
`File processing failed: <status>` for any terminal status other than
`"completed"`, else return the handles. -/
def uploadFileToVectorStore (fileId vectorStoreFileId : String)
    (initialStatus : String) (updates : List String) :
    Option (Except String (String × String)) :=
  match pollStatus initialStatus updates with
  | none => none
  | some status =>
    if status ≠ "completed" then
      some (.error ("File processing failed: " ++ status))
    else
      some (.ok (fileId, vectorStoreFileId))

/-! ### OpenAI Run Stream Adapter setup (handleOpenAI,
src/unnamed/part_006 lines 162-189): thread resolution and the message
appended to the vendor thread before the run starts. -/

structure OpenAIMessage where
  role : String
  content : String

/-- The vendor-side conversation actions handleOpenAI performs before
streaming: whether `threads.create()` ran, the thread used for the run,
and every `threads.messages.create` call as (thread, role, content). -/
structure RunSetup where
  createdThread : Bool
  threadId : String
  appendedMessages : List (String × String × String)

/-- Which path handleOpenAI takes: the simple chat fallback (no
assistant configured) or the Assistants run with the given setup. -/
inductive OpenAIPath where
  | simpleChat
  | runStream (setup : RunSetup)

/-- handleOpenAI up to the run start.  `newThreadId` is the identifier
the vendor would mint for `threads.create()`.  With an empty message
array, `messages[messages.length - 1]` is `undefined` and reading its
`.content` throws a TypeError. -/
def handleOpenAI (messages : List OpenAIMessage) (assistantId threadId : Option String)
    (newThreadId : String) : Except String OpenAIPath :=
  if assistantId.getD "" = "" then .ok .simpleChat
  else
    let currentThreadId := if threadId.getD "" = "" then newThreadId else threadId.getD ""
    match messages.getLast? with
    | none => .error "TypeError: cannot read properties of undefined"
    | some lastMessage =>
      .ok (.runStream
        { createdThread := threadId.getD "" = "",
          threadId := currentThreadId,
          appendedMessages := [(currentThreadId, "user", lastMessage.content)] })

/-! ### Concrete wire data of testable property 3. -/

/-- The upstream chunk sequence of the round-trip property: the five
fragments, the last chunk also carrying the cumulative usage metadata
{input 10, output 5}. -/
def demoChunks : List GeminiChunk :=
  [ { text := "The", usageMetadata := none },
    { text := " ", usageMetadata := none },
    { text := "answer", usageMetadata := none },
    { text := " is", usageMetadata := none },
    { text := " 42.",
      usageMetadata := some { promptTokenCount := some 10, candidatesTokenCount := some 5 } } ]

/-- The encoded byte stream of the round-trip property, produced by the
Gemini adapter's encoder with model identifier "m". -/
def demoEncoded : String := String.join (handleGeminiStreamLines demoChunks "m")

/-- The encoded stream broken into two delivery events at byte offset
`n` (every byte of this traffic is ASCII, so characters are bytes). -/
def demoSplitAt (n : Nat) : List String :=
  [String.mk (demoEncoded.data.take n), String.mk (demoEncoded.data.drop n)]

/-- Lines that are all TextDelta frames: each one carries the `0:`
marker. -/
def deltaShaped (lines : List String) : Prop :=
  ∃ ps : List String, lines = ps.map (fun s => "0:" ++ s)

/-- The wire frame ordering invariant: zero or more TextDelta (`0:`)
lines followed by exactly one UsageSummary (`2:`) line and then
end-of-stream. -/
def streamWellFormed (lines : List String) : Prop :=
  ∃ (ds : List String) (rest : String),
    lines = ds.map (fun s => "0:" ++ s) ++ ["2:" ++ rest]

/-! ## Theorems -/

theorem deltaShaped_nil : deltaShaped [] := ⟨[], rfl⟩

theorem deltaShaped_append {l1 l2 : List String} (h1 : deltaShaped l1) (h2 : deltaShaped l2) :
    deltaShaped (l1 ++ l2) := by
  obtain ⟨p1, rfl⟩ := h1
  obtain ⟨p2, rfl⟩ := h2
  exact ⟨p1 ++ p2, by simp⟩

theorem deltaShaped_textLine (t : String) : deltaShaped [encodeTextLine t] :=
  ⟨[jsonQuote t ++ "\n"], rfl⟩

theorem deltaShaped_filterMap {α : Type} (f : α → Option String) (l : List α)
    (h : ∀ a s, f a = some s → ∃ t, s = encodeTextLine t) :
    deltaShaped (l.filterMap f) := by
  induction l with
  | nil => exact deltaShaped_nil
  | cons a l ih =>
    rw [List.filterMap_cons]
    cases hfa : f a with
    | none => exact ih
    | some s =>
      obtain ⟨t, rfl⟩ := h a s hfa
      obtain ⟨ps, hps⟩ := ih
      exact ⟨(jsonQuote t ++ "\n") :: ps, by rw [hps]; rfl⟩

theorem geminiLoop_delta : ∀ (chunks : List GeminiChunk) (t : Nat × Nat),
    deltaShaped (geminiLoop chunks t).1
  | [], _ => deltaShaped_nil
  | c :: rest, t => by
    simp only [geminiLoop]
    apply deltaShaped_append
    · by_cases hc : c.text = ""
      · rw [if_neg (not_not_intro hc)]
        exact deltaShaped_nil
      · rw [if_pos hc]
        exact deltaShaped_textLine c.text
    · exact geminiLoop_delta rest _

theorem openAILoop_delta : ∀ (events : List RunEvent) (t : Nat × Nat),
    deltaShaped (openAILoop events t).1
  | [], _ => deltaShaped_nil
  | e :: rest, t => by
    match e with
    | .messageDelta content =>
      simp only [openAILoop]
      apply deltaShaped_append
      · refine deltaShaped_filterMap _ _ (fun b s hb => ?_)
        match hv : b.textValue with
        | none => rw [hv] at hb; cases hb
        | some v =>
          rw [hv] at hb
          have hb2 : (if b.type = "text" ∧ v ≠ "" then some (encodeTextLine v)
              else none) = some s := hb
          by_cases hcond : b.type = "text" ∧ v ≠ ""
          · rw [if_pos hcond] at hb2
            exact ⟨v, (Option.some.inj hb2).symm⟩
          · rw [if_neg hcond] at hb2; cases hb2
      · exact openAILoop_delta rest _
    | .runCompleted usage =>
      simp only [openAILoop]
      apply deltaShaped_append
      · exact deltaShaped_nil
      · exact openAILoop_delta rest _
    | .otherEvent =>
      simp only [openAILoop]
      apply deltaShaped_append
      · exact deltaShaped_nil
      · exact openAILoop_delta rest _

theorem simpleLoop_delta : ∀ (chunks : List CompletionChunk) (t : Nat × Nat),
    deltaShaped (simpleLoop chunks t).1
  | [], _ => deltaShaped_nil
  | c :: rest, t => by
    simp only [simpleLoop]
    apply deltaShaped_append
    · match c.content with
      | none => exact deltaShaped_nil
      | some v =>
        show deltaShaped (if v ≠ "" then [encodeTextLine v] else [])
        by_cases hv : v = ""
        · rw [if_neg (not_not_intro hv)]
          exact deltaShaped_nil
        · rw [if_pos hv]
          exact deltaShaped_textLine v
    · exact simpleLoop_delta rest _

theorem streamWellFormed_concat (ls : List String) (x : String) (h : deltaShaped ls) :
    streamWellFormed (ls ++ ["2:" ++ x]) := by
  obtain ⟨ps, rfl⟩ := h
  exact ⟨ps, x, rfl⟩

/-- C1: Round-trip of the wire frame codec: encoding the fragments
["The", " ", "answer", " is", " 42."] and the usage {input 10, output 5,
model "m"} with the adapter's frame encoder and running the client
decoder over the resulting byte stream reconstructs the content
"The answer is 42." and delivers exactly (10, 5, "m") to the
`trackUsage` accounting callback. -/
theorem frame_round_trip :
    (runDecoder [demoEncoded]).assistantContent = "The answer is 42." ∧
    (runDecoder [demoEncoded]).trackedUsage =
      [(some (Json.num 10), some (Json.num 5), some (Json.str "m"))] :=
  ⟨rfl, rfl⟩

/-- C2: evaluation of the client decoder at the failing input: the
encoded stream of the round-trip property split into two delivery
events at byte offset 5 (mid-way through the first `0:` frame line)
loses the fragment "The" — both halves of the broken line fail to
parse and are skipped — so the reconstructed content differs from
"The answer is 42." even though usage still arrives intact. -/
theorem split_frame_drops_fragment :
    (runDecoder (demoSplitAt 5)).assistantContent = " answer is 42." ∧
    (runDecoder (demoSplitAt 5)).assistantContent ≠ "The answer is 42." ∧
    (runDecoder (demoSplitAt 5)).trackedUsage =
      [(some (Json.num 10), some (Json.num 5), some (Json.str "m"))] :=
  ⟨rfl, by decide, rfl⟩

/-- C3: Wire frame ordering invariant: for every upstream event
sequence, each of the three adapters emits zero or more TextDelta `0:`
lines followed by exactly one terminal UsageSummary `2:` line and then
end-of-stream — no frame follows the UsageSummary and no UsageSummary
precedes a TextDelta. -/
theorem frame_ordering (gchunks : List GeminiChunk) (events : List RunEvent)
    (cchunks : List CompletionChunk) (m tid : String) :
    streamWellFormed (handleGeminiStreamLines gchunks m) ∧
    streamWellFormed (handleOpenAIStreamLines events m tid) ∧
    streamWellFormed (handleOpenAISimpleStreamLines cchunks m) := by
  refine ⟨?_, ?_, ?_⟩
  · exact streamWellFormed_concat _ _ (geminiLoop_delta gchunks (0, 0))
  · exact streamWellFormed_concat _ _ (openAILoop_delta events (0, 0))
  · exact streamWellFormed_concat _ _ (simpleLoop_delta cchunks (0, 0))

/-- C4 counterexample: with a failing document-listing call the Gemini
adapter does not proceed at all — the error propagates out of
handleGemini (whose body has no try/catch around the listing call), and
because POST returns the handler promise without `await`, the request
fails as an unhandled rejection carrying that error instead of opening
a stream, contradicting the claim that the adapter proceeds with
"none" grounding and streams. -/
theorem gemini_grounding_cx :
    handleGemini (.error "listFiles failed") demoChunks "m" = .error "listFiles failed" ∧
    POSTgemini (some "k") (some "m") (.error "listFiles failed") demoChunks =
      .unhandledRejection "listFiles failed" :=
  ⟨rfl, rfl⟩

/-- C4 (amended): if the document listing succeeds but yields no active
documents, the Gemini adapter proceeds with grounding "none" and
streams; if the listing call itself throws, the error propagates
unchanged out of the adapter (no stream is opened). -/
theorem gemini_grounding_amended (chunks : List GeminiChunk) (m e : String) :
    handleGemini (.ok (some [])) chunks m =
      .ok { systemGrounding := "none", lines := handleGeminiStreamLines chunks m } ∧
    handleGemini (.error e) chunks m = .error e :=
  ⟨rfl, rfl⟩

theorem str_append_ne_empty (p x : String) (hp : p.data ≠ []) : p ++ x ≠ "" := by
  intro h
  have hd := congrArg String.data h
  rw [String.data_append] at hd
  have h0 : String.data "" = [] := rfl
  rw [h0] at hd
  exact hp (List.append_eq_nil.mp hd).1

theorem getOrCreateAssistant_fresh (st : VendorState) :
    getOrCreateAssistant st none none =
      ({ assistants := st.assistants ++
           [{ id := "asst-" ++ toString (st.nextId + 1),
              vectorStoreIds := ["vs-" ++ toString st.nextId] }],
         vectorStores := st.vectorStores ++ ["vs-" ++ toString st.nextId],
         nextId := st.nextId + 2 },
       "asst-" ++ toString (st.nextId + 1), "vs-" ++ toString st.nextId) := rfl

theorem getOrCreateAssistant_retrieve_hit (st : VendorState) (aid vsId : String)
    (ha : aid ≠ "") (hv : vsId ≠ "") (ex : Assistant)
    (hfind : retrieveAssistant st aid = some ex) :
    getOrCreateAssistant st (some aid) (some vsId) = (st, ex.id, vsId) := by
  simp [getOrCreateAssistant, Option.getD_some, hfind, ha, hv]

theorem getOrCreateAssistant_hit_mem (asts l1 l2 : List Assistant) (a : Assistant)
    (vss : List String) (n : Nat) (aid vsId : String)
    (hl : asts = l1 ++ [a] ++ l2) (haid : a.id = aid)
    (ha : aid ≠ "") (hv : vsId ≠ "") :
    getOrCreateAssistant ⟨asts, vss, n⟩ (some aid) (some vsId) =
      (⟨asts, vss, n⟩, aid, vsId) := by
  obtain ⟨ex, hfind, hexid⟩ :
      ∃ ex, asts.find? (fun x => x.id == aid) = some ex ∧ ex.id = aid := by
    subst haid hl
    have hsome : ((l1 ++ [a] ++ l2).find? (fun x => x.id == a.id)).isSome := by
      rw [List.find?_isSome]
      exact ⟨a, by simp, by simp⟩
    obtain ⟨ex, hfind⟩ := Option.isSome_iff_exists.mp hsome
    refine ⟨ex, hfind, ?_⟩
    simpa using List.find?_some hfind
  have hhit := getOrCreateAssistant_retrieve_hit ⟨asts, vss, n⟩ aid vsId ha hv ex hfind
  rw [hhit, hexid]

/-- C5: Idempotent resource creation: starting from any vendor state,
calling ensure (getOrCreateAssistant) twice with no prior handles and a
third time with the handle pair returned by the first call returns for
the third call exactly the pair the first call returned, and leaves the
vendor state untouched (no Assistant or VectorStore is created by the
third call). -/
theorem ensure_idempotent (st0 : VendorState) :
    (getOrCreateAssistant
        (getOrCreateAssistant (getOrCreateAssistant st0 none none).1 none none).1
        (some (getOrCreateAssistant st0 none none).2.1)
        (some (getOrCreateAssistant st0 none none).2.2)).2 =
      (getOrCreateAssistant st0 none none).2 ∧
    (getOrCreateAssistant
        (getOrCreateAssistant (getOrCreateAssistant st0 none none).1 none none).1
        (some (getOrCreateAssistant st0 none none).2.1)
        (some (getOrCreateAssistant st0 none none).2.2)).1 =
      (getOrCreateAssistant (getOrCreateAssistant st0 none none).1 none none).1 := by
  simp only [getOrCreateAssistant_fresh]
  rw [getOrCreateAssistant_hit_mem _ st0.assistants
      [⟨"asst-" ++ toString (st0.nextId + 2 + 1), ["vs-" ++ toString (st0.nextId + 2)]⟩]
      ⟨"asst-" ++ toString (st0.nextId + 1), ["vs-" ++ toString st0.nextId]⟩
      _ _ ("asst-" ++ toString (st0.nextId + 1)) ("vs-" ++ toString st0.nextId)
      rfl rfl (str_append_ne_empty _ _ (by decide)) (str_append_ne_empty _ _ (by decide))]
  exact ⟨rfl, rfl⟩

/-- C6: Handle self-healing: when the vendor rejects retrieval of the
given assistant handle (retrieveAssistant returns none, modelling the
thrown "not found"), ensure does not propagate the error: it creates a
fresh VectorStore and a fresh Assistant whose `file_search` grounding
tool points at the new store, and returns the new handle pair. -/
theorem ensure_self_healing (st : VendorState) (h : String)
    (hmiss : retrieveAssistant st h = none) :
    getOrCreateAssistant st (some h) none =
      ({ assistants := st.assistants ++
           [{ id := "asst-" ++ toString (st.nextId + 1),
              vectorStoreIds := ["vs-" ++ toString st.nextId] }],
         vectorStores := st.vectorStores ++ ["vs-" ++ toString st.nextId],
         nextId := st.nextId + 2 },
       "asst-" ++ toString (st.nextId + 1), "vs-" ++ toString st.nextId) := by
  by_cases hh : h = ""
  · simp [getOrCreateAssistant, hh, createVectorStore, createAssistant]
  · simp [getOrCreateAssistant, hh, hmiss, createVectorStore, createAssistant]

theorem ensure_self_healing_witness :
    retrieveAssistant ⟨[], [], 0⟩ "asst-dead" = none ∧
    getOrCreateAssistant ⟨[], [], 0⟩ (some "asst-dead") none =
      ({ assistants := [{ id := "asst-1", vectorStoreIds := ["vs-0"] }],
         vectorStores := ["vs-0"], nextId := 2 }, "asst-1", "vs-0") :=
  ⟨rfl, ensure_self_healing ⟨[], [], 0⟩ "asst-dead" rfl⟩

/-- C7: Ingestion terminal states: whenever the poll loop terminates
with terminal status `t`, ingest returns the file handles successfully
iff `t` is "completed", and for any other terminal status it throws the
IngestionFailed error whose message carries the vendor status string
(and returns no handle). -/
theorem ingestion_terminal (fileId vsfId initialStatus : String) (updates : List String)
    (t : String) (hterm : pollStatus initialStatus updates = some t) :
    (uploadFileToVectorStore fileId vsfId initialStatus updates =
        some (.ok (fileId, vsfId)) ↔ t = "completed") ∧
    (t ≠ "completed" →
      uploadFileToVectorStore fileId vsfId initialStatus updates =
        some (.error ("File processing failed: " ++ t))) := by
  unfold uploadFileToVectorStore
  rw [hterm]
  by_cases hc : t = "completed"
  · subst hc
    simp
  · simp [hc]

theorem ingestion_terminal_witness :
    pollStatus "in_progress" ["failed"] = some "failed" ∧
    ((uploadFileToVectorStore "file-1" "vsf-1" "in_progress" ["failed"] =
        some (.ok ("file-1", "vsf-1")) ↔ ("failed" : String) = "completed") ∧
     (("failed" : String) ≠ "completed" →
       uploadFileToVectorStore "file-1" "vsf-1" "in_progress" ["failed"] =
         some (.error ("File processing failed: " ++ "failed")))) :=
  ⟨rfl, ingestion_terminal "file-1" "vsf-1" "in_progress" ["failed"] "failed" rfl⟩

/-- C8: Thread reuse by the OpenAI Run Stream Adapter: with an
assistant handle, an existing (non-empty) thread handle and a non-empty
history, handleOpenAI creates no thread and appends exactly one message
to the vendor thread — the newest user message, i.e. the last element
of the history — and no other history message. -/
theorem thread_reuse (messages : List OpenAIMessage) (aid t newTid : String)
    (ha : aid ≠ "") (ht : t ≠ "") (hm : messages ≠ []) :
    ∃ last, messages.getLast? = some last ∧
      handleOpenAI messages (some aid) (some t) newTid =
        .ok (.runStream { createdThread := false, threadId := t,
                          appendedMessages := [(t, "user", last.content)] }) := by
  obtain ⟨last, hlast⟩ := Option.isSome_iff_exists.mp (List.getLast?_isSome.mpr hm)
  refine ⟨last, hlast, ?_⟩
  simp [handleOpenAI, ha, ht, hlast]

theorem thread_reuse_witness :
    ("asst-1" : String) ≠ "" ∧ ("thread-1" : String) ≠ "" ∧
    ([⟨"user", "hi"⟩] : List OpenAIMessage) ≠ [] ∧
    ∃ last, ([⟨"user", "hi"⟩] : List OpenAIMessage).getLast? = some last ∧
      handleOpenAI [⟨"user", "hi"⟩] (some "asst-1") (some "thread-1") "thread-new" =
        .ok (.runStream { createdThread := false, threadId := "thread-1",
                          appendedMessages := [("thread-1", "user", last.content)] }) :=
  ⟨by decide, by decide, List.cons_ne_nil _ _,
    thread_reuse [⟨"user", "hi"⟩] "asst-1" "thread-1" "thread-new"
      (by decide) (by decide) (List.cons_ne_nil _ _)⟩

/-- C9: MissingCredential precedence in the dispatcher: when the
credential field is empty or absent, POST returns the structured 400
JSON error before either adapter is invoked (the `rejected` outcome of
the dispatch is the early return — no adapter branch is reached and no
upstream vendor call is made). -/
theorem missing_credential_rejected
    (apiKey modelId provider assistantId threadId : Option String)
    (h : apiKey.getD "" = "") :
    dispatchPOST apiKey modelId provider assistantId threadId =
      .rejected 400 ("No " ++
        (if provider.getD "gemini" = "openai" then "OpenAI" else "Gemini") ++
        " API key configured. Please add one in Settings.") := by
  simp [dispatchPOST, h]

theorem missing_credential_rejected_witness :
    (none : Option String).getD "" = "" ∧
    dispatchPOST none none none none none =
      .rejected 400 "No Gemini API key configured. Please add one in Settings." :=
  ⟨rfl, missing_credential_rejected none none none none none rfl⟩

theorem geminiLoop_totals : ∀ (chunks : List GeminiChunk) (t : Nat × Nat),
    (∀ c ∈ chunks, c.usageMetadata = none) → (geminiLoop chunks t).2 = t
  | [], _, _ => rfl
  | c :: rest, t, h => by
    have hc : c.usageMetadata = none := h c (List.mem_cons_self c rest)
    simp only [geminiLoop, hc]
    exact geminiLoop_totals rest t (fun x hx => h x (List.mem_cons_of_mem _ hx))

theorem openAILoop_totals : ∀ (events : List RunEvent) (t : Nat × Nat),
    (∀ e ∈ events, ∀ u, e ≠ RunEvent.runCompleted (some u)) →
    (openAILoop events t).2 = t
  | [], _, _ => rfl
  | e :: rest, t, h => by
    have hrest := fun x hx => h x (List.mem_cons_of_mem _ hx)
    match e with
    | .messageDelta content =>
      simp only [openAILoop]
      exact openAILoop_totals rest t hrest
    | .runCompleted usage =>
      match usage with
      | some u => exact absurd rfl (h _ (List.mem_cons_self _ _) u)
      | none =>
        simp only [openAILoop]
        exact openAILoop_totals rest t hrest
    | .otherEvent =>
      simp only [openAILoop]
      exact openAILoop_totals rest t hrest

theorem simpleLoop_totals : ∀ (chunks : List CompletionChunk) (t : Nat × Nat),
    (∀ c ∈ chunks, c.usage = none) → (simpleLoop chunks t).2 = t
  | [], _, _ => rfl
  | c :: rest, t, h => by
    have hc : c.usage = none := h c (List.mem_cons_self c rest)
    simp only [simpleLoop, hc]
    exact simpleLoop_totals rest t (fun x hx => h x (List.mem_cons_of_mem _ hx))

/-- C10: terminal UsageSummary even without vendor usage: when no
upstream chunk or event carries usage metadata, every adapter still
ends its stream with exactly one UsageSummary line whose token counts
are 0 and whose model field is the request's (possibly defaulted) model
identifier. -/
theorem usage_frame_default_zero (provider : String) (modelId : Option String)
    (tid : String) (gchunks : List GeminiChunk) (events : List RunEvent)
    (cchunks : List CompletionChunk)
    (hg : ∀ c ∈ gchunks, c.usageMetadata = none)
    (ho : ∀ e ∈ events, ∀ u, e ≠ RunEvent.runCompleted (some u))
    (hs : ∀ c ∈ cchunks, c.usage = none) :
    (handleGeminiStreamLines gchunks (effectiveModel modelId provider)).getLast? =
      some (encodeUsageLine 0 0 (effectiveModel modelId provider)) ∧
    (handleOpenAIStreamLines events (effectiveModel modelId provider) tid).getLast? =
      some (encodeUsageLineThread 0 0 (effectiveModel modelId provider) tid) ∧
    (handleOpenAISimpleStreamLines cchunks (effectiveModel modelId provider)).getLast? =
      some (encodeUsageLine 0 0 (effectiveModel modelId provider)) := by
  refine ⟨?_, ?_, ?_⟩
  · show ((geminiLoop gchunks (0, 0)).1 ++
      [encodeUsageLine (geminiLoop gchunks (0, 0)).2.1 (geminiLoop gchunks (0, 0)).2.2
        (effectiveModel modelId provider)]).getLast? = _
    rw [geminiLoop_totals gchunks (0, 0) hg]
    exact List.getLast?_concat _
  · show ((openAILoop events (0, 0)).1 ++
      [encodeUsageLineThread (openAILoop events (0, 0)).2.1 (openAILoop events (0, 0)).2.2
        (effectiveModel modelId provider) tid]).getLast? = _
    rw [openAILoop_totals events (0, 0) ho]
    exact List.getLast?_concat _
  · show ((simpleLoop cchunks (0, 0)).1 ++
      [encodeUsageLine (simpleLoop cchunks (0, 0)).2.1 (simpleLoop cchunks (0, 0)).2.2
        (effectiveModel modelId provider)]).getLast? = _
    rw [simpleLoop_totals cchunks (0, 0) hs]
    exact List.getLast?_concat _

theorem usage_frame_default_zero_witness :
    (∀ c ∈ ([] : List GeminiChunk), c.usageMetadata = none) ∧
    (∀ e ∈ ([] : List RunEvent), ∀ u, e ≠ RunEvent.runCompleted (some u)) ∧
    (∀ c ∈ ([] : List CompletionChunk), c.usage = none) ∧
    ((handleGeminiStreamLines [] (effectiveModel none "gemini")).getLast? =
        some (encodeUsageLine 0 0 (effectiveModel none "gemini")) ∧
      (handleOpenAIStreamLines [] (effectiveModel none "gemini") "thread-1").getLast? =
        some (encodeUsageLineThread 0 0 (effectiveModel none "gemini") "thread-1") ∧
      (handleOpenAISimpleStreamLines [] (effectiveModel none "gemini")).getLast? =
        some (encodeUsageLine 0 0 (effectiveModel none "gemini"))) :=
  ⟨fun c hc => absurd hc (List.not_mem_nil c),
   fun e he => absurd he (List.not_mem_nil e),
   fun c hc => absurd hc (List.not_mem_nil c),
   usage_frame_default_zero "gemini" none "thread-1" [] [] []
     (fun c hc => absurd hc (List.not_mem_nil c))
     (fun e he => absurd he (List.not_mem_nil e))
     (fun c hc => absurd hc (List.not_mem_nil c))⟩

end RagGateway
